import Mathlib

/-!
Verification development for the SwagFluence schema-resolution and
example-synthesis core (package `internal/swagger` resolver and package
`internal/example` generator). The Go data model and the two components are
shallowly embedded below; Go maps are modelled as association lists, Go
pointers that may be nil as `Option`, Go `error` returns as `Except String`,
and the in-place mutation that `ResolveSchema` performs on its argument is
modelled by explicit state passing (the function returns the result together
with the final state of the input schema object).
-/

/-- Dynamically typed example values (`interface\x7b\x7d` in the Go code): the
closed JSON-like variant produced by the example generator. Go `int` literals
become `int`, Go `float64` literals become `float`, Go maps become ordered
field lists. -/
inductive Value : Type where
  | null
  | bool (b : Bool)
  | int (n : Int)
  | float (f : Float)
  | str (s : String)
  | arr (elems : List Value)
  | obj (fields : List (String × Value))

mutual
/-- Embeds the Go struct `swagger.Schema` (Type, Format, Ref, Properties,
Required, Items). `Properties` is a `map[string]Property`, modelled as an
association list; `Items` is a possibly nil `*Schema`. -/
inductive Schema : Type where
  | mk (type format ref : String) (properties : List (String × Property))
       (required : List String) (items : Option Schema) : Schema

/-- Embeds the Go struct `swagger.Property` (Type, Description, Format, Ref,
Items, Example, MinLength, MaxLength, Minimum, Maximum, Pattern, ReadOnly).
The `Example` field (Go `interface\x7b\x7d`, nil when absent) is modelled as
`Option Value` and named `exampleVal` because `example` is a Lean keyword. -/
inductive Property : Type where
  | mk (type description format ref : String) (items : Option Schema)
       (exampleVal : Option Value) (minLength maxLength : Int)
       (minimum maximum : Float) (pattern : String) (readOnly : Bool) : Property
end

def Schema.type : Schema → String
  | .mk t _ _ _ _ _ => t

def Schema.format : Schema → String
  | .mk _ f _ _ _ _ => f

def Schema.ref : Schema → String
  | .mk _ _ r _ _ _ => r

def Schema.properties : Schema → List (String × Property)
  | .mk _ _ _ ps _ _ => ps

def Schema.required : Schema → List String
  | .mk _ _ _ _ rq _ => rq

def Schema.items : Schema → Option Schema
  | .mk _ _ _ _ _ it => it

def Property.type : Property → String
  | .mk t _ _ _ _ _ _ _ _ _ _ _ => t

def Property.description : Property → String
  | .mk _ d _ _ _ _ _ _ _ _ _ _ => d

def Property.format : Property → String
  | .mk _ _ f _ _ _ _ _ _ _ _ _ => f

def Property.ref : Property → String
  | .mk _ _ _ r _ _ _ _ _ _ _ _ => r

def Property.items : Property → Option Schema
  | .mk _ _ _ _ it _ _ _ _ _ _ _ => it

def Property.exampleVal : Property → Option Value
  | .mk _ _ _ _ _ ex _ _ _ _ _ _ => ex

/-- Replaces the `type` field of a property, keeping every other field
(models the Go assignment `prop.Type = schema.Type`). -/
def Property.withType : Property → String → Property
  | .mk _ d f r it ex ml xl mn mx pa ro, t => .mk t d f r it ex ml xl mn mx pa ro

/-- Replaces the `items` field of a property, keeping every other field
(models the Go assignment `prop.Items = resolved`). -/
def Property.withItems : Property → Option Schema → Property
  | .mk t d f r _ ex ml xl mn mx pa ro, it => .mk t d f r it ex ml xl mn mx pa ro

/-- Embeds the Go struct `swagger.Definition` (Type, Properties, Required,
Ref). -/
structure Definition : Type where
  type : String
  properties : List (String × Property)
  required : List String
  ref : String

/-- Embeds the Go struct `swagger.Components` (Schemas). -/
structure Components : Type where
  schemas : List (String × Definition)

/-- Embeds the Go struct `swagger.Spec`, restricted to the two definition
tables that the resolver reads (`Components`, a possibly nil pointer, and
`Definitions`). The remaining fields (OpenAPI, Swagger, Info, Paths, Tags)
are never read by the resolver or the example generator and are omitted. -/
structure Spec : Type where
  components : Option Components
  definitions : List (String × Definition)

/-- Models Go `strings.HasPrefix s pre` on the character sequence of the
string (for valid UTF-8 strings byte-sequence prefixing and character
sequence prefixing agree). -/
def strStartsWith (s pre : String) : Bool :=
  pre.data.isPrefixOf s.data

/-- Models Go `strings.TrimPrefix s pre`: drops `pre` from the front of `s`
when it is present, otherwise returns `s` unchanged. -/
def strTrimStart (s pre : String) : String :=
  if strStartsWith s pre then String.mk (s.data.drop pre.data.length) else s

/-- Models Go `strings.ToLower` (the generator only ever lowercases ASCII
field names). -/
def strToLower (s : String) : String :=
  String.mk (s.data.map Char.toLower)

/-- Helper for `strContains`: does `sub` occur as a prefix of some suffix of
the list? -/
def containsFrom (sub : List Char) : List Char → Bool
  | [] => sub.isPrefixOf []
  | c :: rest => sub.isPrefixOf (c :: rest) || containsFrom sub rest

/-- Models Go `strings.Contains s sub`. -/
def strContains (s sub : String) : Bool :=
  containsFrom sub.data s.data

/-- The OpenAPI 3.x reference form handled by `resolveRef`. -/
def compSchemasPre : String := "#/components/schemas/"

/-- The Swagger 2.0 reference form handled by `resolveRef`. -/
def defsPre : String := "#/definitions/"

/-- The schema that `resolveRef` builds from a found definition:
`&Schema\x7bType: def.Type, Properties: def.Properties, Required: def.Required\x7d`
(Format, Ref and Items are left at their zero values). -/
def schemaOfDef (d : Definition) : Schema :=
  .mk d.type "" "" d.properties d.required none

/-- Embeds `Resolver.resolveRef` (src/unnamed/part_002 lines 77-107): try the
components table for a `#/components/schemas/` reference, the flat
definitions table for a `#/definitions/` reference, and fail with the
unsupported-format error otherwise. -/
def resolveRef (spec : Spec) (ref : String) : Except String Schema :=
  if strStartsWith ref compSchemasPre then
    let name := strTrimStart ref compSchemasPre
    match spec.components with
    | some comps =>
      match comps.schemas.lookup name with
      | some d => .ok (schemaOfDef d)
      | none => .error ("schema not found: " ++ name)
    | none => .error ("schema not found: " ++ name)
  else if strStartsWith ref defsPre then
    let name := strTrimStart ref defsPre
    match spec.definitions.lookup name with
    | some d => .ok (schemaOfDef d)
    | none => .error ("definition not found: " ++ name)
  else
    .error ("unsupported $ref format: " ++ ref)

/-- First statement block of `Resolver.resolveProperty` (src/unnamed/part_002
lines 55-63): a ref-bearing property has its `type` overwritten by the target
schema's type; its other fields, `ref` included, are kept. -/
def resolvePropRefStage (spec : Spec) (p : Property) : Except String Property :=
  if p.ref ≠ "" then
    match resolveRef spec p.ref with
    | .error e => .error e
    | .ok s => .ok (p.withType s.type)
  else .ok p

/-- Second statement block of `Resolver.resolveProperty` (lines 65-71): a
property whose items schema carries a ref has its items replaced by the
resolved schema. -/
def resolvePropItemsStage (spec : Spec) (p1 : Property) : Except String Property :=
  match p1.items with
  | some it =>
    if it.ref ≠ "" then
      match resolveRef spec it.ref with
      | .error e => .error e
      | .ok resolved => .ok (p1.withItems (some resolved))
    else .ok p1
  | none => .ok p1

/-- Embeds `Resolver.resolveProperty` (src/unnamed/part_002 lines 54-74): the
two statement blocks in sequence, each early-returning its error. -/
def resolveProperty (spec : Spec) (p : Property) : Except String Property :=
  match resolvePropRefStage spec p with
  | .error e => .error e
  | .ok p1 => resolvePropItemsStage spec p1

/-- The property-resolution loop of `ResolveSchema`: resolve every entry of
the properties table, wrapping a failure for key `k` as
`failed to resolve property k: cause`. -/
def resolveProps (spec : Spec) : List (String × Property) → Except String (List (String × Property))
  | [] => .ok []
  | (k, p) :: rest =>
    match resolveProperty spec p with
    | .error e => .error ("failed to resolve property " ++ k ++ ": " ++ e)
    | .ok p1 => (resolveProps spec rest).map (fun r => (k, p1) :: r)

/-- Embeds `Resolver.ResolveSchema` (src/unnamed/part_002 lines 19-51) on a
non-nil schema, with the in-place mutation made explicit: the Go method
assigns `schema.Properties = resolvedProperties` and `schema.Items =
resolved` through the pointer it was given, so the embedding returns the
pair (returned result, final state of the input schema object). On a
top-level reference the input is untouched and a fresh schema is returned;
otherwise the properties table is replaced once it fully resolves (an error
leaves the input as it was) and the items pointer is replaced by the
recursively resolved items. -/
def resolveSchemaMut (spec : Spec) : Schema → Except String Schema × Schema
  | .mk t f ref props req items =>
    if ref ≠ "" then (resolveRef spec ref, .mk t f ref props req items)
    else
      match (if props.length > 0 then resolveProps spec props else .ok props) with
      | .error e => (.error e, .mk t f ref props req items)
      | .ok props1 =>
        match items with
        | none => (.ok (.mk t f ref props1 req none), .mk t f ref props1 req none)
        | some it =>
          match resolveSchemaMut spec it with
          | (.error e, it1) =>
            (.error ("failed to resolve items: " ++ e), .mk t f ref props1 req (some it1))
          | (.ok r, _) =>
            (.ok (.mk t f ref props1 req (some r)), .mk t f ref props1 req (some r))

/-- Embeds the exported `Resolver.ResolveSchema` entry point, including the
nil-schema short-circuit (`if schema == nil return nil, nil`). -/
def ResolveSchema (spec : Spec) (s? : Option Schema) : Except String (Option Schema) :=
  match s? with
  | none => .ok none
  | some s =>
    match (resolveSchemaMut spec s).1 with
    | .error e => .error e
    | .ok r => .ok (some r)

/-- Embeds `ExtractRefName` (src/unnamed/part_002 lines 110-116): the last
`/`-separated component of the reference string. -/
def ExtractRefName (ref : String) : String :=
  let parts := ref.data.splitOn '/'
  if parts.length > 0 then String.mk (parts.getLastD []) else ref

/-- Embeds `Generator.buildStringExample` (lines 117-129): format-aware
string literals for schema-level string nodes. -/
def buildStringExample (s : Schema) : String :=
  if s.format = "date" then "2024-01-15"
  else if s.format = "date-time" then "2024-01-15T10:30:00Z"
  else if s.format = "email" then "user@example.com"
  else "string"

/-- Embeds `Generator.generateStringValue` (lines 163-183): format literals
first, then the case-insensitive field-name heuristics. -/
def generateStringValue (fieldName : String) (p : Property) : String :=
  let fieldLower := strToLower fieldName
  if p.format = "date" then "2024-01-15"
  else if p.format = "date-time" then "2024-01-15T10:30:00Z"
  else if p.format = "email" || strContains fieldLower "email" then "user@example.com"
  else if strContains fieldLower "name" then "Sample " ++ fieldName
  else if strContains fieldLower "id" then "123e4567-e89b-12d3-a456-426614174000"
  else "string"

mutual
/-- Embeds `Generator.buildExample` (src/internal/config/config.go part,
lines 73-94): nil schema or depth above 10 yields null, otherwise dispatch
on the schema's type tag. The Go depth counter is an `int`, modelled as
`Int`. -/
def buildExample : Option Schema → Int → Value
  | none, _ => .null
  | some s, d =>
    if d > 10 then .null
    else
      match s.type with
      | "object" => buildObjectExample s d
      | "array" => buildArrayExample s d
      | "string" => .str (buildStringExample s)
      | "integer" => .int 0
      | "number" => .float 0.0
      | "boolean" => .bool false
      | _ => .null

/-- Embeds `Generator.buildObjectExample` (lines 96-106): one example entry
per declared property, each built at depth + 1. -/
def buildObjectExample : Schema → Int → Value
  | .mk _ _ _ props _ _, d => .obj (buildPropsExample props d)

/-- The property loop of `buildObjectExample`:
`obj[name] = g.buildPropertyExample(name, prop, depth+1)`. -/
def buildPropsExample : List (String × Property) → Int → List (String × Value)
  | [], _ => []
  | (n, p) :: rest, d => (n, buildPropertyExample n p (d + 1)) :: buildPropsExample rest d

/-- Embeds `Generator.buildArrayExample` (lines 108-115): a singleton list
holding the element type's example when an items schema is present, the
empty list otherwise. -/
def buildArrayExample : Schema → Int → Value
  | .mk _ _ _ _ _ none, _ => .arr []
  | .mk _ _ _ _ _ (some it), d => .arr [buildExample (some it) (d + 1)]

/-- Embeds `Generator.buildPropertyExample` (lines 131-161): explicit example
first, then the reference placeholder, then arrays, then the per-type
defaults. -/
def buildPropertyExample : String → Property → Int → Value
  | _, .mk _ _ _ _ _ (some v) _ _ _ _ _ _, _ => v
  | fieldName, .mk ty de f ref items none ml xl mn mx pa ro, d =>
    if ref ≠ "" then .str ("<" ++ ExtractRefName ref ++ ">")
    else if ty = "array" ∧ items.isSome then .arr [buildExample items (d + 1)]
    else if ty = "string" then
      .str (generateStringValue fieldName (.mk ty de f ref items none ml xl mn mx pa ro))
    else if ty = "integer" then .int 0
    else if ty = "number" then .int 0
    else if ty = "boolean" then .bool false
    else if ty = "object" then .obj []
    else .null
end

/-- Embeds `Generator.GenerateExampleJSON` up to JSON serialization: the
example value the generator marshals is `buildExample schema 0`. -/
def GenerateExample (s? : Option Schema) : Value :=
  buildExample s? 0

mutual
/-- A reference node anywhere in a schema tree: the node's own `ref` is
nonempty, or some property (or its items), or the array items schema,
carries one. -/
def schemaHasRefNode : Schema → Bool
  | .mk _ _ ref props _ items =>
    ref != "" || propsHaveRefNode props ||
      (match items with | none => false | some it => schemaHasRefNode it)

/-- Reference-node check over a property table. -/
def propsHaveRefNode : List (String × Property) → Bool
  | [] => false
  | (_, p) :: rest => propHasRefNode p || propsHaveRefNode rest

/-- Reference-node check for a single property: its own `ref`, or a
reference inside its items schema. -/
def propHasRefNode : Property → Bool
  | .mk _ _ _ ref items _ _ _ _ _ _ _ =>
    ref != "" ||
      (match items with | none => false | some it => schemaHasRefNode it)
end

/-- A definition whose body holds a reference node (its own `ref` field or
any of its properties). -/
def defHasRefNode (d : Definition) : Bool :=
  d.ref != "" || propsHaveRefNode d.properties

/-- The definition a reference string points at, mirroring `resolveRef`'s
dispatch: the components table for the OpenAPI 3.x form, the flat table for
the Swagger 2.0 form, nothing otherwise. -/
def refTarget (spec : Spec) (ref : String) : Option Definition :=
  if strStartsWith ref compSchemasPre then
    match spec.components with
    | some comps => comps.schemas.lookup (strTrimStart ref compSchemasPre)
    | none => none
  else if strStartsWith ref defsPre then
    spec.definitions.lookup (strTrimStart ref defsPre)
  else none

/-- A schema that is just a reference node, as built in the repository's own
tests (`&Schema\x7bRef: "..."\x7d`). -/
def refSchema (ref : String) : Schema :=
  .mk "" "" ref [] [] none

/-- A plain scalar property of the given type with every other field at its
zero value. -/
def simpleProp (t : String) : Property :=
  .mk t "" "" "" none none 0 0 0.0 0.0 "" false

/-- A pure reference property (`\x7b"$ref": "..."\x7d`) with every other
field at its zero value. -/
def refProp (r : String) : Property :=
  .mk "" "" "" r none none 0 0 0.0 0.0 "" false

/-- The type tag recorded for field `k` of a schema's property table; used
to tell two concrete schemas apart without deciding equality of whole
trees. -/
def propTypeIn (s : Schema) (k : String) : Option String :=
  (s.properties.lookup k).map Property.type

/-- The reference string recorded for field `k` of a schema's property
table. -/
def propRefIn (s : Schema) (k : String) : Option String :=
  (s.properties.lookup k).map Property.ref

/-- The `Address` definition of the nested-resolution scenario
(`components.schemas.Address = \x7bstreet: string, city: string\x7d`). -/
def addressDef : Definition :=
  ⟨"object", [("street", simpleProp "string"), ("city", simpleProp "string")], [], ""⟩

/-- The `User` definition of the nested-resolution scenario
(`components.schemas.User = \x7bname: string, address: $ref Address\x7d`). -/
def userDef : Definition :=
  ⟨"object", [("name", simpleProp "string"), ("address", refProp "#/components/schemas/Address")], [], ""⟩

/-- The spec of the nested-resolution scenario: an OpenAPI 3.x document whose
components table holds `Address` and `User`. -/
def specNested : Spec :=
  ⟨some ⟨[("Address", addressDef), ("User", userDef)]⟩, []⟩

/-- A one-definition Swagger 2.0 spec with an empty object definition `A`. -/
def aDef : Definition := ⟨"object", [], [], ""⟩

/-- The spec holding only `A` in its flat definitions table. -/
def specA : Spec := ⟨none, [("A", aDef)]⟩

/-- An inline object schema with a single ref-bearing property `x` pointing
at `A`. -/
def inlineRefSchema : Schema :=
  .mk "object" "" "" [("x", refProp "#/definitions/A")] [] none

/-- `inlineRefSchema` after resolution: property `x` has its type overwritten
with `A`'s type while its reference string is kept. -/
def inlineRefResolved : Schema :=
  .mk "object" "" "" [("x", (refProp "#/definitions/A").withType "object")] [] none

/-- The `D = \x7bid: integer, name: string\x7d` definition of the round-trip
scenario. -/
def idNameDef : Definition :=
  ⟨"object", [("id", simpleProp "integer"), ("name", simpleProp "string")], [], ""⟩

/-- A spec with both definition tables empty. -/
def emptySpec : Spec := ⟨none, []⟩

/-- A Swagger 2.0 spec holding the round-trip definition under the name
`D`. -/
def specD : Spec := ⟨none, [("D", idNameDef)]⟩

/-- Every schema `resolveRef` hands back is built by `schemaOfDef`, whose
`ref` field is empty. -/
theorem resolveRef_ok_ref (spec : Spec) (ref : String) (s : Schema)
    (h : resolveRef spec ref = .ok s) : s.ref = "" := by
  unfold resolveRef at h
  simp only [] at h
  repeat' split at h
  all_goals (try simp_all [schemaOfDef])
  all_goals (subst h; simp [Schema.ref])

/-- A schema whose `ref` field is nonempty is resolved by delegating to
`resolveRef`, leaving the input object untouched. -/
theorem resolveSchemaMut_of_ref (spec : Spec) (s : Schema) (h : s.ref ≠ "") :
    resolveSchemaMut spec s = (resolveRef spec s.ref, s) := by
  cases s with
  | mk t f r props req items =>
    simp only [Schema.ref] at h
    simp [resolveSchemaMut, Schema.ref, h]

/-- When `refTarget` finds a definition, the reference string is nonempty
(both supported forms have a nonempty literal in front). -/
theorem refTarget_ne_empty (spec : Spec) (ref : String) (D : Definition)
    (h : refTarget spec ref = some D) : ref ≠ "" := by
  intro heq
  subst heq
  simp [refTarget, show strStartsWith "" compSchemasPre = false from by decide,
    show strStartsWith "" defsPre = false from by decide] at h

/-- `resolveRef` succeeds with the looked-up definition's shape exactly when
`refTarget` finds that definition. -/
theorem resolveRef_of_target (spec : Spec) (ref : String) (D : Definition)
    (h : refTarget spec ref = some D) : resolveRef spec ref = .ok (schemaOfDef D) := by
  unfold refTarget at h
  unfold resolveRef
  repeat' split at h
  all_goals simp_all

/-- `ResolveSchema` on a pure reference schema returns the target
definition's shape whenever the target exists. -/
theorem resolveRefSchema_of_target (spec : Spec) (ref : String) (D : Definition)
    (h : refTarget spec ref = some D) :
    ResolveSchema spec (some (refSchema ref)) = .ok (some (schemaOfDef D)) := by
  have hne : ref ≠ "" := refTarget_ne_empty spec ref D h
  have hmut : resolveSchemaMut spec (refSchema ref) = (resolveRef spec ref, refSchema ref) :=
    resolveSchemaMut_of_ref spec (refSchema ref) (by simpa [refSchema, Schema.ref] using hne)
  simp [ResolveSchema, hmut, resolveRef_of_target spec ref D h]

/-- C5: for every schema tree and every starting depth, the example builder
terminates and yields a value (it is a total Lean function over schema
trees, and its recursion passes `depth + 1` at every recursive call), and
once the depth counter exceeds the fixed bound 10 it cuts off with null
regardless of the remaining structure. -/
theorem c5_depth_cutoff (s? : Option Schema) (d : Int) (hd : 10 < d) :
    buildExample s? d = Value.null := by
  cases s? with
  | none => simp [buildExample]
  | some s => simp [buildExample, hd]

/-- Witness for C5 at depth 11 on a concrete schema. -/
theorem c5_witness :
    (10 : Int) < 11 ∧ buildExample (some inlineRefSchema) 11 = Value.null :=
  ⟨by decide, c5_depth_cutoff (some inlineRefSchema) 11 (by decide)⟩

/-- C7: a reference string carrying neither supported form makes
`resolveRef` fail with exactly the unsupported-format error, whatever the
spec's tables hold; `ResolveSchema` on a reference schema built from such a
string (a reference node has a nonempty string) fails the same way. -/
theorem c7_unsupported_ref_error (spec : Spec) (ref : String)
    (h1 : strStartsWith ref compSchemasPre = false)
    (h2 : strStartsWith ref defsPre = false) :
    resolveRef spec ref = .error ("unsupported $ref format: " ++ ref)
    ∧ (ref ≠ "" →
        ResolveSchema spec (some (refSchema ref)) = .error ("unsupported $ref format: " ++ ref)) := by
  have herr : resolveRef spec ref = .error ("unsupported $ref format: " ++ ref) := by
    simp [resolveRef, h1, h2]
  refine ⟨herr, fun hne => ?_⟩
  have hmut : resolveSchemaMut spec (refSchema ref) = (resolveRef spec ref, refSchema ref) :=
    resolveSchemaMut_of_ref spec (refSchema ref) (by simpa [refSchema, Schema.ref] using hne)
  simp [ResolveSchema, hmut, herr]

/-- Witness for C7 on the reference string `invalid`. -/
theorem c7_witness :
    resolveRef emptySpec "invalid" = .error "unsupported $ref format: invalid"
    ∧ ResolveSchema emptySpec (some (refSchema "invalid"))
        = .error "unsupported $ref format: invalid" := by
  have h := c7_unsupported_ref_error emptySpec "invalid" (by decide) (by decide)
  exact ⟨h.1, h.2 (by decide)⟩

/-- C10: on an array-kind schema within the depth bound, the example builder
returns a singleton list holding the element type's example when an items
schema is present, and the empty list when the items schema is absent. -/
theorem c10_array_example (s : Schema) (d : Int) (ht : s.type = "array") (hd : d ≤ 10) :
    (∀ it, s.items = some it → buildExample (some s) d = .arr [buildExample (some it) (d + 1)])
    ∧ (s.items = none → buildExample (some s) d = .arr []) := by
  have hnd : ¬ (d > 10) := by omega
  cases s with
  | mk t f r props req items =>
    simp only [Schema.type] at ht
    subst ht
    constructor
    · intro it hit
      simp only [Schema.items] at hit
      subst hit
      simp only [buildExample, buildArrayExample, Schema.type, if_neg hnd]
    · intro hit
      simp only [Schema.items] at hit
      subst hit
      simp only [buildExample, buildArrayExample, Schema.type, if_neg hnd]

/-- Witness for C10: an integer-element array schema gives a singleton list,
an items-less array schema gives the empty list. -/
theorem c10_witness :
    buildExample (some (.mk "array" "" "" [] [] (some (.mk "integer" "" "" [] [] none)))) 0
      = .arr [buildExample (some (.mk "integer" "" "" [] [] none)) 1]
    ∧ buildExample (some (.mk "array" "" "" [] [] none)) 0 = .arr [] :=
  ⟨(c10_array_example (.mk "array" "" "" [] [] (some (.mk "integer" "" "" [] [] none))) 0 rfl
      (by decide)).1 (.mk "integer" "" "" [] [] none) rfl,
   (c10_array_example (.mk "array" "" "" [] [] none) 0 rfl (by decide)).2 rfl⟩

/-- C6: for every definition `D` found in the applicable table for a
supported reference string, and whose body holds no reference node, resolving
a reference schema pointing at `D` succeeds with a tree structurally equal to
`D`: same kind, the very same field list (so equal field descriptions), and
the same required-name list. (The resolver copies the definition's shape
verbatim, so the law holds; the no-references hypothesis keeps the statement
as the claim phrases it.) -/
theorem c6_shape_preservation (spec : Spec) (ref : String) (D : Definition)
    (htarget : refTarget spec ref = some D) (hnoref : defHasRefNode D = false) :
    ResolveSchema spec (some (refSchema ref)) = .ok (some (schemaOfDef D))
    ∧ (schemaOfDef D).type = D.type
    ∧ (schemaOfDef D).properties = D.properties
    ∧ (schemaOfDef D).required = D.required :=
  ⟨resolveRefSchema_of_target spec ref D htarget, rfl, rfl, rfl⟩

/-- Witness for C6 on the reference-free definition `D` of `specD`. -/
theorem c6_witness :
    refTarget specD "#/definitions/D" = some idNameDef
    ∧ defHasRefNode idNameDef = false
    ∧ ResolveSchema specD (some (refSchema "#/definitions/D")) = .ok (some (schemaOfDef idNameDef)) :=
  ⟨rfl, rfl, (c6_shape_preservation specD "#/definitions/D" idNameDef rfl rfl).1⟩

/-- C8: for any spec whose flat table maps `D` to the object definition with
exactly the fields `id : integer` and `name : string`, resolving a reference
to `D` succeeds with `D`'s shape, and synthesizing that resolved tree yields
a mapping with exactly the keys `id` and `name`, the first mapped to the
number 0 and the second to the string `Sample name`. -/
theorem c8_roundtrip (spec : Spec) (h : spec.definitions.lookup "D" = some idNameDef) :
    ResolveSchema spec (some (refSchema "#/definitions/D")) = .ok (some (schemaOfDef idNameDef))
    ∧ buildExample (some (schemaOfDef idNameDef)) 0
        = .obj [("id", .int 0), ("name", .str "Sample name")] := by
  have htarget : refTarget spec "#/definitions/D" = some idNameDef := by
    simp [refTarget, show strStartsWith "#/definitions/D" compSchemasPre = false from by decide,
      show strStartsWith "#/definitions/D" defsPre = true from by decide,
      show strTrimStart "#/definitions/D" defsPre = "D" from by decide, h]
  exact ⟨resolveRefSchema_of_target spec "#/definitions/D" idNameDef htarget, rfl⟩

/-- Witness for C8 on the concrete spec `specD`. -/
theorem c8_witness :
    specD.definitions.lookup "D" = some idNameDef
    ∧ ResolveSchema specD (some (refSchema "#/definitions/D")) = .ok (some (schemaOfDef idNameDef))
    ∧ buildExample (some (schemaOfDef idNameDef)) 0
        = .obj [("id", .int 0), ("name", .str "Sample name")] :=
  ⟨rfl, (c8_roundtrip specD rfl).1, (c8_roundtrip specD rfl).2⟩

/-- Whatever branch succeeds, the schema `resolveSchemaMut` returns has an
empty `ref` field: a top-level reference is replaced by `schemaOfDef`, and
the in-place branch is only taken when the input's `ref` is already empty. -/
theorem resolveSchemaMut_ok_ref (spec : Spec) (s : Schema) (r : Schema)
    (h : (resolveSchemaMut spec s).1 = .ok r) : r.ref = "" := by
  cases s with
  | mk t f ref props req items =>
    by_cases hr : ref = ""
    · subst hr
      simp only [resolveSchemaMut] at h
      rw [if_neg (by simp)] at h
      repeat' split at h
      all_goals (try simp_all)
      all_goals (subst h; simp [Schema.ref])
    · rw [resolveSchemaMut_of_ref spec (.mk t f ref props req items) (by simpa [Schema.ref] using hr)] at h
      exact resolveRef_ok_ref spec ref r h

/-- Overwriting a property's type keeps its reference string. -/
theorem withType_ref (p : Property) (t : String) : (p.withType t).ref = p.ref := by
  cases p with
  | mk _ de f r it ex ml xl mn mx pa ro => rfl

/-- Overwriting a property's items keeps its reference string. -/
theorem withItems_ref (p : Property) (it : Option Schema) : (p.withItems it).ref = p.ref := by
  cases p with
  | mk t de f r _ ex ml xl mn mx pa ro => rfl

/-- The ref stage of `resolveProperty` keeps the reference string. -/
theorem resolvePropRefStage_ref (spec : Spec) (p p1 : Property)
    (h : resolvePropRefStage spec p = .ok p1) : p1.ref = p.ref := by
  unfold resolvePropRefStage at h
  split at h
  · split at h
    · simp at h
    · simp at h
      subst h
      exact withType_ref p _
  · simp at h
    subst h
    rfl

/-- The items stage of `resolveProperty` keeps the reference string. -/
theorem resolvePropItemsStage_ref (spec : Spec) (p1 q : Property)
    (h : resolvePropItemsStage spec p1 = .ok q) : q.ref = p1.ref := by
  unfold resolvePropItemsStage at h
  split at h
  · split at h
    · split at h
      · simp at h
      · simp at h
        subst h
        exact withItems_ref p1 _
    · simp at h
      subst h
      rfl
  · simp at h
    subst h
    rfl

/-- `resolveProperty` never clears or changes a property's reference string:
a successful resolution only overwrites the property's type (and possibly its
items), keeping `ref` verbatim. -/
theorem resolveProperty_ref (spec : Spec) (p q : Property)
    (h : resolveProperty spec p = .ok q) : q.ref = p.ref := by
  unfold resolveProperty at h
  split at h
  · simp at h
  · rename_i p1 heq
    exact (resolvePropItemsStage_ref spec p1 q h).trans (resolvePropRefStage_ref spec p p1 heq)

/-- Counterexample to C1: resolving the nested-scenario reference
`#/components/schemas/User` succeeds, yet the returned tree still contains a
reference node — its `address` property keeps `$ref
#/components/schemas/Address` (the resolver copies the target definition's
property table verbatim and never strips property-level refs), so the
invariant `resolver output never contains a reference node` fails. -/
theorem c1_counterexample :
    ResolveSchema specNested (some (refSchema "#/components/schemas/User"))
        = .ok (some (schemaOfDef userDef))
    ∧ schemaHasRefNode (schemaOfDef userDef) = true :=
  ⟨rfl, rfl⟩

/-- C1 amended: the root of a successful resolution is never a reference
node (its `ref` field is empty), but reference nodes may survive below it:
`resolveProperty` keeps a property's `ref` string verbatim on success, so
ref-bearing properties stay reference nodes in the output. -/
theorem c1_root_and_property_refs :
    (∀ (spec : Spec) (s? : Option Schema) (r : Schema),
        ResolveSchema spec s? = .ok (some r) → r.ref = "")
    ∧ (∀ (spec : Spec) (p q : Property),
        resolveProperty spec p = .ok q → q.ref = p.ref) := by
  constructor
  · intro spec s? r h
    cases s? with
    | none => simp [ResolveSchema] at h
    | some s =>
      simp only [ResolveSchema] at h
      cases hres : (resolveSchemaMut spec s).1 with
      | error e => rw [hres] at h; simp at h
      | ok r1 =>
        rw [hres] at h
        simp at h
        subst h
        exact resolveSchemaMut_ok_ref spec s _ hres
  · exact resolveProperty_ref

/-- Witness for the amended C1, applying both parts at concrete inputs. -/
theorem c1_witness :
    (schemaOfDef userDef).ref = ""
    ∧ ((refProp "#/definitions/A").withType "object").ref = (refProp "#/definitions/A").ref :=
  ⟨c1_root_and_property_refs.1 specNested (some (refSchema "#/components/schemas/User"))
      (schemaOfDef userDef) rfl,
   c1_root_and_property_refs.2 specA (refProp "#/definitions/A")
      ((refProp "#/definitions/A").withType "object") rfl⟩

/-- Counterexample to C2: in the nested scenario, `resolve($ref User)` does
return an object with two fields, but the `address` field is not expanded at
all — it is still a bare reference property (ref kept, type empty, and a
`Property` node carries no nested field structure), so the depth-2
structural-equality check of the claim fails. -/
theorem c2_counterexample :
    ResolveSchema specNested (some (refSchema "#/components/schemas/User"))
        = .ok (some (schemaOfDef userDef))
    ∧ propRefIn (schemaOfDef userDef) "address" = some "#/components/schemas/Address"
    ∧ propTypeIn (schemaOfDef userDef) "address" = some ""
    ∧ "#/components/schemas/Address" ≠ "" :=
  ⟨rfl, rfl, rfl, by decide⟩

/-- C2 amended: `resolve($ref User)` yields an object with exactly the two
fields of the `User` definition, copied verbatim: `name` stays a string
property and `address` stays an unexpanded `$ref Address` property. -/
theorem c2_nested_resolution :
    ResolveSchema specNested (some (refSchema "#/components/schemas/User"))
        = .ok (some (schemaOfDef userDef))
    ∧ (schemaOfDef userDef).properties.length = 2
    ∧ (schemaOfDef userDef).properties = userDef.properties :=
  ⟨rfl, rfl, rfl⟩

/-- Counterexample to C3: `ResolveSchema` is not free of side effects on its
input — on the inline schema whose property `x` is a reference, the final
state of the input object (second component of the embedded state pair)
differs from the initial one: the property's type was overwritten in place. -/
theorem c3_counterexample :
    resolveSchemaMut specA inlineRefSchema = (.ok inlineRefResolved, inlineRefResolved)
    ∧ inlineRefResolved ≠ inlineRefSchema :=
  ⟨rfl, fun h => absurd (congrArg (fun s => propTypeIn s "x") h) (by decide)⟩

/-- C3 amended: resolution is a deterministic function of (Spec, schema) and
never touches the Spec's tables (the embedding threads no spec state at
all), but it mutates the input schema object: a top-level reference input is
left unchanged, while any other input is, on success, mutated in place into
exactly the returned resolved tree. -/
theorem c3_mutation_behavior :
    (∀ (spec : Spec) (s : Schema), s.ref ≠ "" → (resolveSchemaMut spec s).2 = s)
    ∧ (∀ (spec : Spec) (s r : Schema), s.ref = "" → (resolveSchemaMut spec s).1 = .ok r →
        (resolveSchemaMut spec s).2 = r) := by
  constructor
  · intro spec s h
    rw [resolveSchemaMut_of_ref spec s h]
  · intro spec s r h0 h
    cases s with
    | mk t f ref props req items =>
      simp only [Schema.ref] at h0
      subst h0
      simp only [resolveSchemaMut] at h ⊢
      rw [if_neg (by simp)] at h ⊢
      repeat' split at h
      all_goals simp_all

/-- Witness for the amended C3, applying both parts at concrete inputs. -/
theorem c3_witness :
    (resolveSchemaMut specNested (refSchema "#/components/schemas/User")).2
        = refSchema "#/components/schemas/User"
    ∧ (resolveSchemaMut specA inlineRefSchema).2 = inlineRefResolved :=
  ⟨c3_mutation_behavior.1 specNested (refSchema "#/components/schemas/User") (by decide),
   c3_mutation_behavior.2 specA inlineRefSchema inlineRefResolved rfl rfl⟩

/-- Counterexample to C4: the definition table does contain `A` and resolving
the reference succeeds, yet `buildPropertyExample` still emits the
placeholder `<A>` — the generator never consults a resolver, so the
placeholder is not reserved for failed resolutions. -/
theorem c4_counterexample :
    resolveRef specA "#/definitions/A" = .ok (schemaOfDef aDef)
    ∧ buildPropertyExample "x" (refProp "#/definitions/A") 1 = .str "<A>" :=
  ⟨rfl, rfl⟩

/-- C4 amended: for every property carrying a reference and no explicit
example, `buildPropertyExample` unconditionally emits the placeholder string
`<Name>` built from the reference's last path segment; it never resolves the
reference, whether or not the definition table contains the target. -/
theorem c4_ref_placeholder (n : String) (p : Property) (d : Int)
    (hex : p.exampleVal = none) (href : p.ref ≠ "") :
    buildPropertyExample n p d = .str ("<" ++ ExtractRefName p.ref ++ ">") := by
  cases p with
  | mk ty de f r it ex ml xl mn mx pa ro =>
    have hex2 : ex = none := hex
    have href2 : r ≠ "" := href
    subst hex2
    show buildPropertyExample n (.mk ty de f r it none ml xl mn mx pa ro) d
        = .str ("<" ++ ExtractRefName r ++ ">")
    simp only [buildPropertyExample]
    rw [if_pos href2]

/-- Witness for the amended C4 on a `Pet` reference. -/
theorem c4_witness :
    (refProp "#/components/schemas/Pet").exampleVal = none
    ∧ (refProp "#/components/schemas/Pet").ref ≠ ""
    ∧ buildPropertyExample "pet" (refProp "#/components/schemas/Pet") 1 = .str "<Pet>" :=
  ⟨rfl, by decide, c4_ref_placeholder "pet" (refProp "#/components/schemas/Pet") 1 rfl (by decide)⟩

/-- A string property carrying only a format tag. -/
def fmtProp (fm : String) : Property :=
  .mk "string" "" fm "" none none 0 0 0.0 0.0 "" false

/-- C9: the scalar-string heuristics, exactly as the code applies them.
Format `date` and `date-time` produce the fixed ISO literals (both for
property-level `generateStringValue` and schema-level `buildStringExample`);
a field whose lowercased name contains `email`, with no explicit format or
example, produces the fixed sample address; a string node matching no
heuristic produces the literal `string`. -/
theorem c9_string_heuristics :
    (∀ (n : String) (p : Property), p.format = "date" →
        generateStringValue n p = "2024-01-15")
    ∧ (∀ (n : String) (p : Property), p.format = "date-time" →
        generateStringValue n p = "2024-01-15T10:30:00Z")
    ∧ (∀ (n : String) (p : Property) (d : Int),
        p.exampleVal = none → p.ref = "" → p.type = "string" → p.format = "" →
        strContains (strToLower n) "email" = true →
        buildPropertyExample n p d = .str "user@example.com")
    ∧ (∀ (n : String) (p : Property),
        p.format ≠ "date" → p.format ≠ "date-time" → p.format ≠ "email" →
        strContains (strToLower n) "email" = false →
        strContains (strToLower n) "name" = false →
        strContains (strToLower n) "id" = false →
        generateStringValue n p = "string")
    ∧ (∀ s : Schema, s.format = "date" → buildStringExample s = "2024-01-15")
    ∧ (∀ s : Schema, s.format = "date-time" → buildStringExample s = "2024-01-15T10:30:00Z")
    ∧ (∀ s : Schema, s.format ≠ "date" → s.format ≠ "date-time" → s.format ≠ "email" →
        buildStringExample s = "string") := by
  refine ⟨?_, ?_, ?_, ?_, ?_, ?_, ?_⟩
  · intro n p h
    simp [generateStringValue, h]
  · intro n p h
    simp [generateStringValue, h]
  · intro n p d hex href hty hf hmail
    cases p with
    | mk ty de f r it ex ml xl mn mx pa ro =>
      have hex2 : ex = none := hex
      have href2 : r = "" := href
      have hty2 : ty = "string" := hty
      have hf2 : f = "" := hf
      subst hex2
      subst href2
      subst hty2
      subst hf2
      simp only [buildPropertyExample]
      simp [generateStringValue, Property.format, hmail]
  · intro n p hf1 hf2 hf3 hm1 hm2 hm3
    simp [generateStringValue, hf1, hf2, hf3, hm1, hm2, hm3]
  · intro s h
    simp [buildStringExample, h]
  · intro s h
    simp [buildStringExample, h]
  · intro s hf1 hf2 hf3
    simp [buildStringExample, hf1, hf2, hf3]

/-- Witness for C9 on concrete formats, field names and nodes. -/
theorem c9_witness :
    generateStringValue "when" (fmtProp "date") = "2024-01-15"
    ∧ generateStringValue "when" (fmtProp "date-time") = "2024-01-15T10:30:00Z"
    ∧ buildPropertyExample "userEmail" (simpleProp "string") 1 = .str "user@example.com"
    ∧ generateStringValue "foo" (simpleProp "string") = "string"
    ∧ buildStringExample (.mk "string" "date" "" [] [] none) = "2024-01-15"
    ∧ buildStringExample (.mk "string" "date-time" "" [] [] none) = "2024-01-15T10:30:00Z"
    ∧ buildStringExample (.mk "string" "" "" [] [] none) = "string" := by
  obtain ⟨h1, h2, h3, h4, h5, h6, h7⟩ := c9_string_heuristics
  exact ⟨h1 "when" (fmtProp "date") rfl,
    h2 "when" (fmtProp "date-time") rfl,
    h3 "userEmail" (simpleProp "string") 1 rfl rfl rfl rfl (by decide),
    h4 "foo" (simpleProp "string") (by decide) (by decide) (by decide)
      (by decide) (by decide) (by decide),
    h5 (.mk "string" "date" "" [] [] none) rfl,
    h6 (.mk "string" "date-time" "" [] [] none) rfl,
    h7 (.mk "string" "" "" [] [] none) (by decide) (by decide) (by decide)⟩

